import Mathlib

/-
Shallow embedding of the Python glue layer of the `syn` repository
(files src/synpy/python/synpy/utils.py,
 src/synpy/python/synpy/pauliopt/synthesizer.py,
 src/synpy/python/synpy/qiskit/plugin.py and src/synpy/qiskit.py).

Rotation angles are Python floats that the glue code never computes with:
it only stores them and stringifies them.  The embedding is therefore
polymorphic in an angle type `A`, and every place where Python applies
`str` to an angle takes an explicit formatter `fmt : A -> String`.
Qubit indices (Python non-negative ints) are `Nat`.
Python exceptions (`raise ValueError(...)`) become `Except.error` with the
raised message; distinct low-level failure modes that no claim depends on
(IndexError / TypeError on malformed tuples) are collapsed into
`Except.error` as well, with a fixed message noted at each site.
-/

/-- Modelled from the spec: `PyCommand` is the Command IR, a Rust enum exposed
to Python (not under src/); per the spec it is the closed set of 13 variants
`H(q)`, `X(q)`, `Y(q)`, `Z(q)`, `S(q)`, `SDgr(q)`, `V(q)`, `VDgr(q)`,
`Rx(q,theta)`, `Ry(q,theta)`, `Rz(q,theta)`, `CX(ctrl,target)`, `CZ(q1,q2)`.
Field order of each variant follows the spec's declaration. -/
inductive PyCommand (A : Type) : Type
  | H (q : Nat)
  | X (q : Nat)
  | Y (q : Nat)
  | Z (q : Nat)
  | S (q : Nat)
  | SDgr (q : Nat)
  | V (q : Nat)
  | VDgr (q : Nat)
  | Rx (q : Nat) (theta : A)
  | Ry (q : Nat) (theta : A)
  | Rz (q : Nat) (theta : A)
  | CX (ctrl : Nat) (target : Nat)
  | CZ (q1 : Nat) (q2 : Nat)
  deriving DecidableEq

/-- Domain of the dynamically-typed Python argument of `pycommand_to_tuple`:
either a genuine `PyCommand` (one of the 13 variants) or some other Python
object, carrying the `str(type(cmd))` text that the final `else` branch of
the `isinstance` chain would splice into its error message. -/
inductive PyObj (A : Type) : Type
  | cmd (c : PyCommand A)
  | other (typeName : String)
  deriving DecidableEq

/-- Element of the Python tuples built by `pycommand_to_tuple`: after the gate
name the tuple holds qubit indices (ints) and, for rotations, the angle. -/
inductive PyAtom (A : Type) : Type
  | qubit (q : Nat)
  | angle (a : A)
  deriving DecidableEq

/-- Translation of `pycommand_to_tuple` (utils.py lines 36-66): an
`isinstance` chain mapping each variant to a tuple `(name, operands...)`,
with the final `else` raising
`ValueError("Unhandled PyCommand variant: " + str(type(cmd)))`. -/
def pycommand_to_tuple {A : Type} : PyObj A → Except String (String × List (PyAtom A))
  | .cmd (.H q) => .ok ("H", [.qubit q])
  | .cmd (.X q) => .ok ("X", [.qubit q])
  | .cmd (.Y q) => .ok ("Y", [.qubit q])
  | .cmd (.Z q) => .ok ("Z", [.qubit q])
  | .cmd (.S q) => .ok ("S", [.qubit q])
  | .cmd (.SDgr q) => .ok ("SDgr", [.qubit q])
  | .cmd (.V q) => .ok ("V", [.qubit q])
  | .cmd (.VDgr q) => .ok ("VDgr", [.qubit q])
  | .cmd (.Rx q a) => .ok ("Rx", [.qubit q, .angle a])
  | .cmd (.Ry q a) => .ok ("Ry", [.qubit q, .angle a])
  | .cmd (.Rz q a) => .ok ("Rz", [.qubit q, .angle a])
  | .cmd (.CX c t) => .ok ("CX", [.qubit c, .qubit t])
  | .cmd (.CZ a b) => .ok ("CZ", [.qubit a, .qubit b])
  | .other t => .error ("Unhandled PyCommand variant: " ++ t)

/-- Translation of `tuple_to_pycommand` (utils.py lines 4-33): dispatch on the
gate-name string, then read the positional operands; an unknown gate name
raises `ValueError("Unknown gate type: " + gate)`.  A known gate name with
operands of the wrong shape would raise IndexError / TypeError in Python;
that failure mode is collapsed into `Except.error "TypeError"`. -/
def tuple_to_pycommand {A : Type} (command_tuple : String × List (PyAtom A)) :
    Except String (PyCommand A) :=
  match command_tuple with
  | ("H", [.qubit q]) => .ok (.H q)
  | ("X", [.qubit q]) => .ok (.X q)
  | ("Y", [.qubit q]) => .ok (.Y q)
  | ("Z", [.qubit q]) => .ok (.Z q)
  | ("S", [.qubit q]) => .ok (.S q)
  | ("SDgr", [.qubit q]) => .ok (.SDgr q)
  | ("V", [.qubit q]) => .ok (.V q)
  | ("VDgr", [.qubit q]) => .ok (.VDgr q)
  | ("Rx", [.qubit q, .angle a]) => .ok (.Rx q a)
  | ("Ry", [.qubit q, .angle a]) => .ok (.Ry q a)
  | ("Rz", [.qubit q, .angle a]) => .ok (.Rz q a)
  | ("CX", [.qubit c, .qubit t]) => .ok (.CX c t)
  | ("CZ", [.qubit a, .qubit b]) => .ok (.CZ a b)
  | (gate, _) =>
      if gate = "H" ∨ gate = "X" ∨ gate = "Y" ∨ gate = "Z" ∨ gate = "S" ∨
         gate = "SDgr" ∨ gate = "V" ∨ gate = "VDgr" ∨ gate = "Rx" ∨
         gate = "Ry" ∨ gate = "Rz" ∨ gate = "CX" ∨ gate = "CZ" then
        .error "TypeError"
      else
        .error ("Unknown gate type: " ++ gate)

/-- Stringification Python performs inside the f-string `f"q[{arg}]"`:
`str` of an int is its decimal form, `str` of a float is given by `fmt`. -/
def pyAtomStr {A : Type} (fmt : A → String) : PyAtom A → String
  | .qubit q => toString q
  | .angle a => fmt a

/-- Translation of Python `str.lower()` restricted to the ASCII gate
mnemonics it is applied to: lower-case every character. -/
def str_lower (s : String) : String := String.mk (s.data.map Char.toLower)

/-- Translation of Python `sep.join(parts)`: concatenate the parts with the
separator between consecutive parts. -/
def py_join (sep : String) : List String → String
  | [] => ""
  | [a] => a
  | a :: b :: rest => a ++ sep ++ py_join sep (b :: rest)

/-- Loop body of `pycommand_to_qasm` (utils.py lines 76-81) applied to one
command: convert to a tuple, lower-case the mnemonic, wrap every remaining
tuple element in `q[...]`, and join with commas. -/
def qasm_statement_of {A : Type} (fmt : A → String) (command : PyObj A) :
    Except String String := do
  let t ← pycommand_to_tuple command
  pure (str_lower t.1 ++ " " ++
    py_join ", " (t.2.map fun arg => "q[" ++ pyAtomStr fmt arg ++ "]") ++ ";")

/-- Accumulation of the statement lines of `pycommand_to_qasm`, in command
order; the first raising command aborts the whole call, as the Python
exception would. -/
def qasm_lines {A : Type} (fmt : A → String) : List (PyObj A) → Except String (List String)
  | [] => .ok []
  | command :: rest => do
    let line ← qasm_statement_of fmt command
    let others ← qasm_lines fmt rest
    pure (line :: others)

/-- Translation of `pycommand_to_qasm` (utils.py lines 69-83): the three
header lines, then one statement per command, joined with newlines. -/
def pycommand_to_qasm {A : Type} (fmt : A → String) (n_qubits : Nat)
    (commands : List (PyObj A)) : Except String String := do
  let lines ← qasm_lines fmt commands
  pure (py_join "\n"
    (["OPENQASM 2.0;", "include \"qelib1.inc\";", "qreg q[" ++ toString n_qubits ++ "];"]
      ++ lines))

/-- Statement form the spec asserts for each Command variant: the lower-cased
variant mnemonic, one space, the comma-separated operand list with each
operand in `q[...]` form, and a closing semicolon.  The code wraps a rotation
angle in `q[...]` exactly like a qubit operand; that behaviour is recorded
here as the code has it and is examined separately. -/
def specQasmStatement {A : Type} (fmt : A → String) : PyCommand A → String
  | .H q => "h q[" ++ toString q ++ "];"
  | .X q => "x q[" ++ toString q ++ "];"
  | .Y q => "y q[" ++ toString q ++ "];"
  | .Z q => "z q[" ++ toString q ++ "];"
  | .S q => "s q[" ++ toString q ++ "];"
  | .SDgr q => "sdgr q[" ++ toString q ++ "];"
  | .V q => "v q[" ++ toString q ++ "];"
  | .VDgr q => "vdgr q[" ++ toString q ++ "];"
  | .Rx q a => "rx q[" ++ toString q ++ "], q[" ++ fmt a ++ "];"
  | .Ry q a => "ry q[" ++ toString q ++ "], q[" ++ fmt a ++ "];"
  | .Rz q a => "rz q[" ++ toString q ++ "], q[" ++ fmt a ++ "];"
  | .CX c t => "cx q[" ++ toString c ++ "], q[" ++ toString t ++ "];"
  | .CZ a b => "cz q[" ++ toString a ++ "], q[" ++ toString b ++ "];"

theorem qasm_statement_of_cmd {A : Type} (fmt : A → String) (c : PyCommand A) :
    qasm_statement_of fmt (PyObj.cmd c) = Except.ok (specQasmStatement fmt c) := by
  cases c <;>
    exact congrArg Except.ok (String.ext (by
      simp [specQasmStatement, str_lower, py_join, pyAtomStr, String.data_append]))

theorem qasm_lines_map {A : Type} (fmt : A → String) (cmds : List (PyCommand A)) :
    qasm_lines fmt (cmds.map PyObj.cmd) = Except.ok (cmds.map (specQasmStatement fmt)) := by
  induction cmds with
  | nil => rfl
  | cons c rest ih =>
      simp only [List.map_cons, qasm_lines, qasm_statement_of_cmd, ih]
      rfl

/-- C2: for every qubit count `n` and every finite command list drawn from
the 13 documented variants, `pycommand_to_qasm` succeeds and returns the
three header lines `OPENQASM 2.0;`, `include "qelib1.inc";`, `qreg q[n];`
followed by exactly one statement per command, in sequence order, each
statement being the lower-cased variant mnemonic with `q[i]` operands. -/
theorem pycommand_to_qasm_structure {A : Type} (fmt : A → String) (n : Nat)
    (cmds : List (PyCommand A)) :
    pycommand_to_qasm fmt n (cmds.map PyObj.cmd) =
      Except.ok (py_join "\n"
        (["OPENQASM 2.0;", "include \"qelib1.inc\";", "qreg q[" ++ toString n ++ "];"]
          ++ cmds.map (specQasmStatement fmt))) := by
  simp [pycommand_to_qasm, qasm_lines_map]

/-- C3: the rendering of a rotation command wraps the angle in `q[...]` just
like a qubit operand, instead of appending it as a bare literal: on the
single command `Rx(0, 1.5)` (angle stringified as "1.5") the emitted
statement line is `rx q[0], q[1.5];`. -/
theorem pycommand_to_qasm_rx_wraps_angle :
    pycommand_to_qasm (fun s => s) 1 [PyObj.cmd (PyCommand.Rx 0 "1.5")] =
      Except.ok "OPENQASM 2.0;\ninclude \"qelib1.inc\";\nqreg q[1];\nrx q[0], q[1.5];" := rfl

/-- C4: `pycommand_to_tuple` fails exactly on arguments that are not one of
the 13 documented variants; on failure the error message names the offending
variant (its `str(type(...))` text); and QASM rendering of a sequence
containing only documented variants never fails. -/
theorem pycommand_to_tuple_total_on_variants {A : Type} (fmt : A → String) (n : Nat) :
    (∀ x : PyObj A, (pycommand_to_tuple x).isOk ↔ ∃ c, x = PyObj.cmd c) ∧
    (∀ t, pycommand_to_tuple (PyObj.other t : PyObj A) =
        Except.error ("Unhandled PyCommand variant: " ++ t)) ∧
    (∀ cmds : List (PyCommand A), (pycommand_to_qasm fmt n (cmds.map PyObj.cmd)).isOk) := by
  refine ⟨?_, fun t => rfl, ?_⟩
  · intro x
    rcases x with c | t
    · cases c <;> simp [pycommand_to_tuple, Except.isOk, Except.toBool]
    · simp [pycommand_to_tuple, Except.isOk, Except.toBool]
  · intro cmds
    simp [pycommand_to_qasm, qasm_lines_map, Except.isOk, Except.toBool]

/-- C9: converting any of the 13 documented Command variants to a tuple with
`pycommand_to_tuple` and back with `tuple_to_pycommand` returns the original
command unchanged. -/
theorem pycommand_tuple_roundtrip {A : Type} (c : PyCommand A) :
    (pycommand_to_tuple (PyObj.cmd c)).bind tuple_to_pycommand = Except.ok c := by
  cases c <;> rfl

/-- Modelled from the spec (host framework side of the Synthesis IR Bridge):
one gate of the pauliopt host `Circuit`, recording the positional arguments
of the gate call in the host's declared parameter order.  Rotations take the
angle first (`rx(angle, qubit)`), and the two-qubit gates take the control
first (`cx(control, target)`), the convention the rest of the repository also
uses (the QASM emission and the bell test write the control operand first). -/
inductive HostGate (A : Type) : Type
  | h (q : Nat)
  | x (q : Nat)
  | y (q : Nat)
  | z (q : Nat)
  | s (q : Nat)
  | sdg (q : Nat)
  | v (q : Nat)
  | vdg (q : Nat)
  | rx (angle : A) (q : Nat)
  | ry (angle : A) (q : Nat)
  | rz (angle : A) (q : Nat)
  | cx (control : Nat) (target : Nat)
  | cz (a : Nat) (b : Nat)
  deriving DecidableEq

/-- Modelled from the spec: the pauliopt host `Circuit` object (outside src/),
a qubit count plus the ordered list of gates added to it. -/
structure Circuit (A : Type) : Type where
  num_qubits : Nat
  gates : List (HostGate A)
  deriving DecidableEq

/-- Dispatch of one loop iteration of `_py_commands_to_circuit`
(synthesizer.py lines 23-53): branch on the gate-name entry `t[0]` of the
tuple and call the host gate method with the remaining entries in the order
the source writes them — `t[1]` alone for the single-qubit gates and
`(t[2], t[1])` for the rotation and two-qubit gates.  The final `else`
raises `ValueError("Unhandled gate type: " + gate)`; argument shapes that
would raise a host-side TypeError are collapsed into that same error path. -/
def host_gate_of_tuple {A : Type} (t : String × List (PyAtom A)) :
    Except String (HostGate A) :=
  match t with
  | ("H", [.qubit q]) => .ok (.h q)
  | ("X", [.qubit q]) => .ok (.x q)
  | ("Y", [.qubit q]) => .ok (.y q)
  | ("Z", [.qubit q]) => .ok (.z q)
  | ("S", [.qubit q]) => .ok (.s q)
  | ("SDgr", [.qubit q]) => .ok (.sdg q)
  | ("V", [.qubit q]) => .ok (.v q)
  | ("VDgr", [.qubit q]) => .ok (.vdg q)
  | ("Rx", [.qubit q, .angle a]) => .ok (.rx a q)
  | ("Ry", [.qubit q, .angle a]) => .ok (.ry a q)
  | ("Rz", [.qubit q, .angle a]) => .ok (.rz a q)
  | ("CX", [.qubit c, .qubit t]) => .ok (.cx t c)
  | ("CZ", [.qubit a, .qubit b]) => .ok (.cz b a)
  | (gate, _) => .error ("Unhandled gate type: " ++ gate)

/-- Gate list accumulated by the loop of `_py_commands_to_circuit`, in
command order; a raising iteration aborts the whole call. -/
def host_gates_of_commands {A : Type} : List (PyObj A) → Except String (List (HostGate A))
  | [] => .ok []
  | command :: rest => do
    let t ← pycommand_to_tuple command
    let g ← host_gate_of_tuple t
    let others ← host_gates_of_commands rest
    pure (g :: others)

/-- Translation of `PauliOptSynthesizer._py_commands_to_circuit`
(synthesizer.py lines 19-55): start from `Circuit(num_qubits)` and add one
host gate per command. -/
def py_commands_to_circuit {A : Type} (py_commends : List (PyObj A))
    (num_qubits : Nat) : Except String (Circuit A) := do
  let gates ← host_gates_of_commands py_commends
  pure ⟨num_qubits, gates⟩

/-- Modelled from the spec: `PyPauliString` (Rust, outside src/), a Pauli
string with a phase, as constructed by `_to_py_pauli_string`. -/
structure PyPauliString (A : Type) : Type where
  pauli_string : String
  phase : A
  deriving DecidableEq

/-- Modelled from the spec: the pauliopt `PauliGadget` (outside src/) as the
glue code reads it — the list of the single-character `.value` strings of its
Paulis, and its rotation angle. -/
structure PauliGadget (A : Type) : Type where
  paulis : List String
  angle : A
  deriving DecidableEq

/-- Modelled from the spec: the pauliopt `PauliPolynomial` (outside src/) as
the glue code reads it — a qubit count and the ordered gadget list that
iterating over the polynomial yields. -/
structure PauliPolynomial (A : Type) : Type where
  num_qubits : Nat
  gadgets : List (PauliGadget A)
  deriving DecidableEq

/-- Translation of `PauliOptSynthesizer.__init__` (synthesizer.py lines
9-12): the object stores the two strategy selector strings it was
constructed with. -/
structure PauliOptSynthesizer : Type where
  pauli_polynomial_strategy : String
  clifford_strategy : String
  deriving DecidableEq

/-- Translation of `PauliOptSynthesizer._to_py_pauli_string` (synthesizer.py
lines 14-17): join the Pauli characters and keep the angle as the phase. -/
def to_py_pauli_string {A : Type} (pauli_gadget : PauliGadget A) : PyPauliString A :=
  ⟨String.join pauli_gadget.paulis, pauli_gadget.angle⟩

/-- Translation of `PauliOptSynthesizer.synthesize` (synthesizer.py lines
57-62), parametric in the Rust core function `synthesize_pauli_exponential`
(outside src/): build the hamiltonian representation, call the core with it,
an empty `clifford_gates` list and the qubit count, and emit the returned
commands into a host circuit. -/
def PauliOptSynthesizer.synthesize {A B : Type}
    (synthesize_pauli_exponential :
      List (List (PyPauliString A)) → List B → Nat → List (PyObj A))
    (self : PauliOptSynthesizer) (pauli_polynomial : PauliPolynomial A) :
    Except String (Circuit A) :=
  let hamiltonian_repr := pauli_polynomial.gadgets.map to_py_pauli_string
  let py_commands :=
    synthesize_pauli_exponential [hamiltonian_repr] [] pauli_polynomial.num_qubits
  py_commands_to_circuit py_commands pauli_polynomial.num_qubits

/-- C5: on a `CX(ctrl, target)` command the emitter calls the host gate
method with the operands swapped — the host control argument receives the
command's target and the host target argument receives the command's ctrl
(`circuit.cx(t[2], t[1])` on the tuple `("CX", ctrl, target)`). -/
theorem py_commands_to_circuit_swaps_cx_operands {A : Type}
    (ctrl target n : Nat) :
    py_commands_to_circuit [(PyObj.cmd (PyCommand.CX ctrl target) : PyObj A)] n =
      Except.ok ⟨n, [HostGate.cx target ctrl]⟩ := rfl

/-- C6: `PauliOptSynthesizer.synthesize` never reads the strategy selectors
stored at construction — for every core function, every polynomial and any
two pairs of selector strings the result is identical, so the selector does
not determine which synthesis algorithm executes. -/
theorem pauliopt_synthesize_ignores_strategy {A B : Type}
    (core : List (List (PyPauliString A)) → List B → Nat → List (PyObj A))
    (pp : PauliPolynomial A) (s1 c1 s2 c2 : String) :
    PauliOptSynthesizer.synthesize core ⟨s1, c1⟩ pp =
      PauliOptSynthesizer.synthesize core ⟨s2, c2⟩ pp := rfl

/-- Modelled from the spec: `PauliExponentialWrap` (Rust, outside src/) is a
Pauli-exponential network — a qubit count and an ordered list of
(Pauli string, angle) gadgets; its constructor takes the qubit count and
starts with an empty gadget list. -/
structure PauliExponentialWrap (A : Type) : Type where
  num_qubits : Nat
  gadgets : List (String × A)
  deriving DecidableEq

/-- Modelled from the spec: one entry of the host circuit's `data` list as
the decompose direction reads it — the loop in `alt_qiskit_to_synir` touches
only the `.name` field, but an instruction also carries its operand qubits. -/
structure QGate : Type where
  name : String
  qubits : List Nat
  deriving DecidableEq

/-- Translation of `alt_qiskit_to_synir` (plugin.py lines 30-40), taken after
the external `transpile(circuit, basis_gates=['cx','h','rz'])` call: the
input is the transpiled circuit's gate list and qubit count.  The function
constructs `PauliExponentialWrap(num_qubits)` and loops over the gates, but
the loop body is `pass` under a `# TODO add gate to pe` comment (the
`if gate.name == 'cx'` branch also only does `pass`), so nothing is ever
added to the network before it is returned. -/
def alt_qiskit_to_synir (A : Type) (gates : List QGate) (num_qubits : Nat) :
    PauliExponentialWrap A :=
  let pe : PauliExponentialWrap A := ⟨num_qubits, []⟩
  gates.foldl (fun pe gate => if gate.name = "cx" then pe else pe) pe

/-- C7: the network returned by `alt_qiskit_to_synir` depends only on the
circuit's qubit count, never on its gates — any two gate lists over the same
qubit count produce the same (empty) network, contradicting the claim that
each gate is folded into the network. -/
theorem alt_qiskit_to_synir_ignores_gates (A : Type) (gates1 gates2 : List QGate)
    (num_qubits : Nat) :
    alt_qiskit_to_synir A gates1 num_qubits = alt_qiskit_to_synir A gates2 num_qubits := by
  have h : ∀ gates : List QGate,
      alt_qiskit_to_synir A gates num_qubits = ⟨num_qubits, []⟩ := by
    intro gates
    induction gates with
    | nil => rfl
    | cons g rest ih =>
        simp only [alt_qiskit_to_synir, List.foldl_cons, ite_self] at ih ⊢
        exact ih
  rw [h gates1, h gates2]

/-- Character selection `"IZXY"[2 * x + z]` from `SynPyCliffordPlugin.run`
(plugin.py line 19), with the GF(2) entries `x`, `z` as booleans. -/
def izxy_char (x z : Bool) : Char :=
  if x then (if z then 'Y' else 'X') else (if z then 'Z' else 'I')

/-- Translation of the `pauli_columns` computation of
`SynPyCliffordPlugin.run` (plugin.py lines 15-19).  The host `Clifford`
object is represented by its `tableau` attribute, a boolean matrix given as
a list of rows (for an n-qubit Clifford, qiskit's tableau has 2n rows —
destabilizers then stabilizers — and 2n+1 columns, the last being the phase
column).  `tableau_x = tableau[:, :n]` and `tableau_z = tableau[:, n:2n]`
are its first and second n-column blocks; iterating over `zip(tableau_x.T,
tableau_z.T)` visits the n column pairs `(j, n + j)` in order, and each
column is read downwards across all rows. -/
def clifford_plugin_pauli_columns (n : Nat) (tableau : List (List Bool)) :
    List String :=
  (List.range n).map fun j =>
    String.mk (tableau.map fun row => izxy_char (row.getD j false) (row.getD (n + j) false))

/-- Translation of the `signs` computation of `SynPyCliffordPlugin.run`
(plugin.py line 20): `clifford.tableau[:, -1].tolist()`, the last entry of
every row. -/
def clifford_plugin_signs (tableau : List (List Bool)) : List Bool :=
  tableau.map fun row => row.getLastD false

/-- Arguments `SynPyCliffordPlugin.run` passes to
`PyCliffordTableau.from_parts` (plugin.py line 23). -/
def clifford_plugin_from_parts_args (n : Nat) (tableau : List (List Bool)) :
    List String × List Bool :=
  (clifford_plugin_pauli_columns n tableau, clifford_plugin_signs tableau)

/-- C8 counterexample: for the 1-qubit identity Clifford, whose qiskit
tableau is the 2-row boolean matrix `[[1,0,0],[0,1,0]]` (destabilizer X,
stabilizer Z, zero phases), `run` hands `from_parts` a single Pauli column
"XZ" of length 2 — not length n = 1 — and a sign vector of length 2 whose
entries are the boolean phase bits, so the claim fails at this input. -/
theorem clifford_plugin_parts_at_identity :
    clifford_plugin_from_parts_args 1 [[true, false, false], [false, true, false]] =
      (["XZ"], [false, false]) ∧
    ("XZ" : String).length ≠ 1 ∧
    (clifford_plugin_signs [[true, false, false], [false, true, false]]).length ≠ 1 := by
  refine ⟨rfl, by decide, by decide⟩

/-- C8 amended: for an n-qubit Clifford input, whose tableau has 2n rows,
`run` calls `from_parts` with exactly n Pauli-column strings, each of length
2n over the alphabet {I,X,Y,Z}, and with the tableau's boolean phase column
as signs, a vector of length 2n. -/
theorem clifford_plugin_parts_shape (n : Nat) (tableau : List (List Bool))
    (h : tableau.length = 2 * n) :
    (clifford_plugin_pauli_columns n tableau).length = n ∧
    (∀ s ∈ clifford_plugin_pauli_columns n tableau, s.length = 2 * n ∧
      ∀ c ∈ s.data, c = 'I' ∨ c = 'X' ∨ c = 'Y' ∨ c = 'Z') ∧
    (clifford_plugin_signs tableau).length = 2 * n := by
  refine ⟨by simp [clifford_plugin_pauli_columns], ?_, by simp [clifford_plugin_signs, h]⟩
  intro s hs
  rcases List.mem_map.1 hs with ⟨j, hj, rfl⟩
  constructor
  · simpa [String.length] using h
  · intro c hc
    rcases List.mem_map.1 hc with ⟨row, hrow, rfl⟩
    cases hx : row.getD j false <;> cases hz : row.getD (n + j) false <;>
      simp [izxy_char]

theorem clifford_plugin_parts_shape_witness :
    ([[true, false, false], [false, true, false]] : List (List Bool)).length = 2 * 1 ∧
    ((clifford_plugin_pauli_columns 1 [[true, false, false], [false, true, false]]).length = 1 ∧
     (∀ s ∈ clifford_plugin_pauli_columns 1 [[true, false, false], [false, true, false]],
        s.length = 2 * 1 ∧ ∀ c ∈ s.data, c = 'I' ∨ c = 'X' ∨ c = 'Y' ∨ c = 'Z') ∧
     (clifford_plugin_signs [[true, false, false], [false, true, false]]).length = 2 * 1) :=
  ⟨by decide,
   clifford_plugin_parts_shape 1 [[true, false, false], [false, true, false]] (by decide)⟩

/-- Translation of the `pauli_columns` computation of `SynPyPlugin.run`
(src/synpy/qiskit.py lines 15-27): the same slicing, transposition and
`"IZXY"[2 * x + z]` selection as in `SynPyCliffordPlugin.run`, written there
across several lines. -/
def synpy_plugin_pauli_columns (n : Nat) (tableau : List (List Bool)) :
    List String :=
  (List.range n).map fun j =>
    String.mk (tableau.map fun row => izxy_char (row.getD j false) (row.getD (n + j) false))

/-- Translation of the `signs` computation of `SynPyPlugin.run`
(src/synpy/qiskit.py line 28): `clifford.tableau[:, -1].tolist()`. -/
def synpy_plugin_signs (tableau : List (List Bool)) : List Bool :=
  tableau.map fun row => row.getLastD false

/-- C10: on the same Clifford tableau the two plugin implementations
`SynPyPlugin.run` and `SynPyCliffordPlugin.run` compute identical
`pauli_columns` lists and identical `signs` vectors before constructing the
tableau. -/
theorem plugins_compute_equal_parts (n : Nat) (tableau : List (List Bool)) :
    synpy_plugin_pauli_columns n tableau = clifford_plugin_pauli_columns n tableau ∧
    synpy_plugin_signs tableau = clifford_plugin_signs tableau :=
  ⟨rfl, rfl⟩
